import Mathlib

/-!
Shallow embedding of the qTox_enhanced audio/video call engine (CoreAV):
the call registry, the public call-control operations, the transport
state-change and invite callbacks, the audio send path with its bounded
retry loop, and the 48 kHz / 16 kHz resampling helpers.

Machine integers are modelled as Nat / Int; the registry (a std::map with
unique keys) is modelled as a function from identifiers to optional call
records; transport interactions and signal emissions are recorded as an
explicit event trace; transport results are supplied as oracle parameters.
-/

namespace CoreAV

/-- Call-state bitmask values from the transport header (toxav.h). -/
def TOXAV_FRIEND_CALL_STATE_ERROR : Nat := 1

/-- Terminal "finished" bit of the transport call-state bitmask. -/
def TOXAV_FRIEND_CALL_STATE_FINISHED : Nat := 2

/-- Bit: the peer is sending audio. -/
def TOXAV_FRIEND_CALL_STATE_SENDING_A : Nat := 4

/-- Bit: the peer is sending video. -/
def TOXAV_FRIEND_CALL_STATE_SENDING_V : Nat := 8

/-- Bit: the peer accepts audio frames from us. -/
def TOXAV_FRIEND_CALL_STATE_ACCEPTING_A : Nat := 16

/-- Bit: the peer accepts video frames from us. -/
def TOXAV_FRIEND_CALL_STATE_ACCEPTING_V : Nat := 32

/-- Record of a one-to-one call, mirroring the ToxFriendCall fields the
CoreAV code reads and writes: active flag, microphone and volume mute
flags, enabled-video flag, the transport state bitmask, the
null-video-bitrate flag and whether a video source object exists. -/
structure ToxFriendCall where
  active : Bool
  muteMic : Bool
  muteVol : Bool
  videoEnabled : Bool
  state : Nat
  nullVideoBitrate : Bool
  hasVideoSource : Bool
deriving DecidableEq, Repr

/-- Record of a group call: mute flags and active flag, the fields the
group query functions read. -/
structure ToxGroupCall where
  active : Bool
  muteMic : Bool
  muteVol : Bool
deriving DecidableEq, Repr

/-- Modelled from the spec: the ToxFriendCall constructor is not among the
source files (only its uses are). Per the spec a Peer Call is created on an
outbound call request or an inbound invite with all-zero state bitmask
(rule 3 of the state machine fires on the first nonzero update), inactive,
unmuted, recording the requested video flag; it owns a video frame source. -/
def newToxFriendCall (video : Bool) : ToxFriendCall :=
  { active := false, muteMic := false, muteVol := false,
    videoEnabled := video, state := 0, nullVideoBitrate := false,
    hasVideoSource := video }

/-- The call registry: friend-id keyed map of peer calls and group-id keyed
map of group calls. std::map has unique keys, so each map is a function
from identifiers to optional records. -/
structure CoreAVState where
  calls : Nat → Option ToxFriendCall
  groupCalls : Nat → Option ToxGroupCall

/-- Registry state with no calls at all. -/
def emptyState : CoreAVState :=
  { calls := fun _ => none, groupCalls := fun _ => none }

/-- Overwrite (or create) the peer-call entry for a friend id, as mutating
through a map iterator or inserting does. -/
def CoreAVState.setCall (st : CoreAVState) (friendNum : Nat)
    (c : ToxFriendCall) : CoreAVState :=
  { st with calls := fun q => if q = friendNum then some c else st.calls q }

/-- Remove the peer-call entry for a friend id (std::map::erase). -/
def CoreAVState.erase (st : CoreAVState) (friendNum : Nat) : CoreAVState :=
  { st with calls := fun q => if q = friendNum then none else st.calls q }

/-- std::map::emplace semantics: if the key is present the map is unchanged
and the returned flag is false; otherwise the entry is inserted and the
flag is true. -/
def CoreAVState.emplace (st : CoreAVState) (friendNum : Nat)
    (c : ToxFriendCall) : Bool × CoreAVState :=
  match st.calls friendNum with
  | some _ => (false, st)
  | none => (true, st.setCall friendNum c)

/-- Per-peer video encoder options passed to toxav_option_set. -/
inductive EncoderOption
  | videoBitrateAutoset
  | videoMaxBitrate
  | videoMinBitrate
deriving DecidableEq, Repr

/-- Result of one toxav_audio_send_frame attempt: success, the transient
lock-contention failure TOXAV_ERR_SEND_FRAME_SYNC, or any other failure. -/
inductive SendFrameRes
  | ok
  | sync
  | otherErr
deriving DecidableEq, Repr

/-- Observable events of a CoreAV operation, in program order: registry
lock acquisition and release, transport commands, signal emissions,
sleeps and the dropped-frame log line. -/
inductive Event
  | acquireWriteLock
  | releaseWriteLock
  | toxavCall (friendNum : Nat)
  | toxavAnswer (friendNum : Nat) (video : Bool)
  | callControlCancel (friendNum : Nat)
  | audioSendFrame (friendNum : Nat)
  | optionSet (friendNum : Nat) (opt : EncoderOption) (val : Nat)
  | emitAvInvite (friendNum : Nat) (video : Bool)
  | emitAvStart (friendNum : Nat) (video : Bool)
  | emitAvEnd (friendNum : Nat) (error : Bool)
  | videoSourceStop (friendNum : Nat)
  | videoSourceRestart (friendNum : Nat)
  | dspDownsample (samples : Nat)
  | dspUpsample (samples : Nat)
  | sleepUsec (n : Nat)
  | logDropFrame
deriving DecidableEq, Repr

/-- The HQ-bitrate policy block repeated in startCall, answerCall and
videoCommCallback: toxav_option_set triples keyed on the configured
screen-video frame rate (30, 25 or 20 fps); any other rate sets nothing. -/
def bitratePolicyEvents (friendNum fps : Nat) : List Event :=
  if fps = 30 then
    [Event.optionSet friendNum EncoderOption.videoBitrateAutoset 0,
     Event.optionSet friendNum EncoderOption.videoMaxBitrate 11000,
     Event.optionSet friendNum EncoderOption.videoMinBitrate 10000]
  else if fps = 25 then
    [Event.optionSet friendNum EncoderOption.videoBitrateAutoset 0,
     Event.optionSet friendNum EncoderOption.videoMaxBitrate 11000,
     Event.optionSet friendNum EncoderOption.videoMinBitrate 10000]
  else if fps = 20 then
    [Event.optionSet friendNum EncoderOption.videoBitrateAutoset 1,
     Event.optionSet friendNum EncoderOption.videoMaxBitrate 180,
     Event.optionSet friendNum EncoderOption.videoMinBitrate 2700]
  else []

/-- Result of a call-control operation: boolean outcome, registry state
afterwards, events in program order. -/
structure OpResult where
  result : Bool
  st : CoreAVState
  events : List Event

/-- Embedding of CoreAV::startCall. Takes the registry write lock; if an
entry for the friend already exists it warns and returns false without any
transport action; otherwise it issues the transport call-initiation request
(toxav_call, whose translated outcome is the oracle callOk), returns false
on transport rejection, and on success constructs a new call, inserts it
into the registry and applies the bitrate policy. -/
def startCall (st : CoreAVState) (friendNum : Nat) (video : Bool)
    (callOk : Bool) (fps : Nat) : OpResult :=
  match st.calls friendNum with
  | some _ =>
    { result := false, st := st,
      events := [Event.acquireWriteLock, Event.releaseWriteLock] }
  | none =>
    if callOk then
      let (_, st') := st.emplace friendNum (newToxFriendCall video)
      { result := true, st := st',
        events := Event.acquireWriteLock :: Event.toxavCall friendNum ::
          (bitratePolicyEvents friendNum fps ++ [Event.releaseWriteLock]) }
    else
      { result := false, st := st,
        events := [Event.acquireWriteLock, Event.toxavCall friendNum,
                   Event.releaseWriteLock] }

/-- Embedding of CoreAV::answerCall. The source asserts that an entry for
the friend exists (the invite callback populated it); the assertion failure
is modelled as none. On transport acceptance (toxav_answer, oracle
answerOk) the call is marked active, the bitrate policy applied and true
returned; on rejection a compensating cancel control signal is sent, the
registry entry erased and false returned. -/
def answerCall (st : CoreAVState) (friendNum : Nat) (video : Bool)
    (answerOk : Bool) (fps : Nat) : Option OpResult :=
  match st.calls friendNum with
  | none => none
  | some c =>
    if answerOk then
      some { result := true,
             st := st.setCall friendNum { c with active := true },
             events := Event.acquireWriteLock :: Event.toxavAnswer friendNum video ::
               (bitratePolicyEvents friendNum fps ++ [Event.releaseWriteLock]) }
    else
      some { result := false, st := st.erase friendNum,
             events := [Event.acquireWriteLock, Event.toxavAnswer friendNum video,
                        Event.callControlCancel friendNum,
                        Event.releaseWriteLock] }

/-- Embedding of CoreAV::stateCallback, the transport state-change
callback. Branch order as in the source: missing entry (warn and return);
error bit (erase, unlock, emit abnormal avEnd); finished bit (erase,
unlock, emit normal avEnd); first nonzero state after all-zero (mark
active, set state, unlock, emit avStart); peer stopped sending video (stop
the video source if present, set state); peer resumed sending video
(restart the video source if present, set state); otherwise no change. -/
def stateCallback (st : CoreAVState) (friendNum : Nat) (state : Nat) :
    CoreAVState × List Event :=
  match st.calls friendNum with
  | none => (st, [Event.acquireWriteLock, Event.releaseWriteLock])
  | some call =>
    if state &&& TOXAV_FRIEND_CALL_STATE_ERROR ≠ 0 then
      (st.erase friendNum,
       [Event.acquireWriteLock, Event.releaseWriteLock,
        Event.emitAvEnd friendNum true])
    else if state &&& TOXAV_FRIEND_CALL_STATE_FINISHED ≠ 0 then
      (st.erase friendNum,
       [Event.acquireWriteLock, Event.releaseWriteLock,
        Event.emitAvEnd friendNum false])
    else if call.state = 0 ∧ state ≠ 0 then
      (st.setCall friendNum { call with active := true, state := state },
       [Event.acquireWriteLock, Event.releaseWriteLock,
        Event.emitAvStart friendNum call.videoEnabled])
    else if call.state &&& TOXAV_FRIEND_CALL_STATE_SENDING_V ≠ 0 ∧
            state &&& TOXAV_FRIEND_CALL_STATE_SENDING_V = 0 then
      (st.setCall friendNum { call with state := state },
       Event.acquireWriteLock ::
         ((if call.hasVideoSource then [Event.videoSourceStop friendNum]
           else []) ++ [Event.releaseWriteLock]))
    else if call.state &&& TOXAV_FRIEND_CALL_STATE_SENDING_V = 0 ∧
            state &&& TOXAV_FRIEND_CALL_STATE_SENDING_V ≠ 0 then
      (st.setCall friendNum { call with state := state },
       Event.acquireWriteLock ::
         ((if call.hasVideoSource then [Event.videoSourceRestart friendNum]
           else []) ++ [Event.releaseWriteLock]))
    else
      (st, [Event.acquireWriteLock, Event.releaseWriteLock])

/-- Embedding of CoreAV::callCallback, the transport call-invite callback.
Constructs a new call and tries to emplace it; if the friend already has a
registry entry the emplace fails, a cancel control signal is sent to the
transport and the callback returns with no notification; otherwise the
state bitmask is pre-filled from the audio/video flags of the invite, the
lock is released and avInvite is emitted. -/
def callCallback (st : CoreAVState) (friendNum : Nat) (audio video : Bool) :
    CoreAVState × List Event :=
  let call := newToxFriendCall video
  let (inserted, st') := st.emplace friendNum call
  if inserted then
    let state :=
      (if audio then
        TOXAV_FRIEND_CALL_STATE_SENDING_A ||| TOXAV_FRIEND_CALL_STATE_ACCEPTING_A
       else 0) |||
      (if video then
        TOXAV_FRIEND_CALL_STATE_SENDING_V ||| TOXAV_FRIEND_CALL_STATE_ACCEPTING_V
       else 0)
    (st'.setCall friendNum { call with state := state },
     [Event.acquireWriteLock, Event.releaseWriteLock,
      Event.emitAvInvite friendNum video])
  else
    (st', [Event.acquireWriteLock, Event.callControlCancel friendNum,
           Event.releaseWriteLock])

/-- Embedding of the toxav_audio_send_frame do-while loop of
CoreAV::sendCallAudio. The oracle tr gives the transport result of the
i-th attempt; the budget argument is 3 minus the retries counter, so the
loop re-sends after a sync failure only while the incremented counter is
still below 3. Each attempt appends an audioSendFrame event; each sync
failure additionally appends the 500 microsecond sleep. Returns the final
transport result and the events. -/
def sendFrameLoop (tr : Nat → SendFrameRes) (callId : Nat) :
    Nat → Nat → SendFrameRes × List Event
  | i, b + 2 =>
    match tr i with
    | SendFrameRes.sync =>
      let r := sendFrameLoop tr callId (i + 1) (b + 1)
      (r.1, Event.audioSendFrame callId :: Event.sleepUsec 500 :: r.2)
    | res => (res, [Event.audioSendFrame callId])
  | i, _ =>
    match tr i with
    | SendFrameRes.sync =>
      (SendFrameRes.sync, [Event.audioSendFrame callId, Event.sleepUsec 500])
    | res => (res, [Event.audioSendFrame callId])

/-- Native capture sample rate of the audio backend (48 kHz), the rate the
echo-cancellation path of sendCallAudio is gated on. -/
def AUDIO_SAMPLE_RATE : Nat := 48000

/-- Embedding of CoreAV::sendCallAudio. Returns false only when the call id
has no registry entry; returns true (no-op) when the call is mic-muted, not
active, or its state lacks the accepting-audio bit. Otherwise, when the
frame is mono at the native rate and echo cancellation is enabled, the DSP
pipeline downsamples to 16 kHz, filters and upsamples back in place; then
the frame is sent with the bounded retry loop, a persisting lock-busy
error drops the frame with a log line, and true is returned regardless. -/
def sendCallAudio (st : CoreAVState) (callId : Nat) (samples : Nat)
    (chans : Nat) (rate : Nat) (echoCancel : Bool) (tr : Nat → SendFrameRes) :
    Bool × List Event :=
  match st.calls callId with
  | none => (false, [])
  | some call =>
    if call.muteMic ∨ call.active = false ∨
        call.state &&& TOXAV_FRIEND_CALL_STATE_ACCEPTING_A = 0 then
      (true, [])
    else
      let dspEvents :=
        if chans = 1 ∧ rate = AUDIO_SAMPLE_RATE ∧ echoCancel then
          [Event.dspDownsample samples, Event.dspUpsample (samples / 3)]
        else []
      let r := sendFrameLoop tr callId 0 3
      (true, dspEvents ++ r.2 ++
        (if r.1 = SendFrameRes.sync then [Event.logDropFrame] else []))

/-- Embedding of CoreAV::isCallStarted for a friend: the null check comes
first, then registry membership. -/
def isCallStartedFriend (st : CoreAVState) (f : Option Nat) : Bool :=
  match f with
  | none => false
  | some fid => (st.calls fid).isSome

/-- Embedding of CoreAV::isCallStarted for a group: the null check comes
first, then registry membership. -/
def isCallStartedGroup (st : CoreAVState) (g : Option Nat) : Bool :=
  match g with
  | none => false
  | some gid => (st.groupCalls gid).isSome

/-- Embedding of CoreAV::isCallActive for a friend. The source reads
f->getId() before any null check, so a null argument dereferences a null
pointer, modelled as none; with a valid pointer a missing registry entry
yields false, and otherwise the active flag is returned. -/
def isCallActiveFriend (st : CoreAVState) (f : Option Nat) : Option Bool :=
  match f with
  | none => none
  | some fid =>
    match st.calls fid with
    | none => some false
    | some c => some (isCallStartedFriend st (some fid) && c.active)

/-- Embedding of CoreAV::isCallActive for a group; like the friend variant
it reads g->getId() before any null check. -/
def isCallActiveGroup (st : CoreAVState) (g : Option Nat) : Option Bool :=
  match g with
  | none => none
  | some gid =>
    match st.groupCalls gid with
    | none => some false
    | some c => some (isCallStartedGroup st (some gid) && c.active)

/-- Embedding of CoreAV::isCallVideoEnabled. The source reads f->getId()
with no null check (none for a null pointer); with a valid pointer the
short-circuit on isCallStarted makes a missing entry yield false, and an
existing entry yields its enabled-video flag. -/
def isCallVideoEnabled (st : CoreAVState) (f : Option Nat) : Option Bool :=
  match f with
  | none => none
  | some fid =>
    match st.calls fid with
    | none => some false
    | some c => some (isCallStartedFriend st (some fid) && c.videoEnabled)

/-- Embedding of CoreAV::isCallInputMuted: null-checked, then membership
and the mic-mute flag. -/
def isCallInputMuted (st : CoreAVState) (f : Option Nat) : Bool :=
  match f with
  | none => false
  | some fid =>
    match st.calls fid with
    | none => false
    | some c => c.muteMic

/-- Embedding of CoreAV::isCallOutputMuted: null-checked, then membership
and the volume-mute flag. -/
def isCallOutputMuted (st : CoreAVState) (f : Option Nat) : Bool :=
  match f with
  | none => false
  | some fid =>
    match st.calls fid with
    | none => false
    | some c => c.muteVol

/-- Embedding of CoreAV::isGroupCallInputMuted: null-checked, then
membership and the mic-mute flag. -/
def isGroupCallInputMuted (st : CoreAVState) (g : Option Nat) : Bool :=
  match g with
  | none => false
  | some gid =>
    match st.groupCalls gid with
    | none => false
    | some c => c.muteMic

/-- Embedding of CoreAV::isGroupCallOutputMuted: null-checked, then
membership and the volume-mute flag. -/
def isGroupCallOutputMuted (st : CoreAVState) (g : Option Nat) : Bool :=
  match g with
  | none => false
  | some gid =>
    match st.groupCalls gid with
    | none => false
    | some c => c.muteVol

/-- Outcome of one of the basic resampling helpers: the int32_t return
code, the output buffer after the call, and, when the external resampler
was invoked, the frameCountIn and frameCountOut passed to it. -/
structure ResampleOutcome where
  ret : Int
  out : List Int
  resamplerCall : Option (Int × Int)
deriving DecidableEq, Repr

/-- Embedding of CoreAV::downsample_48000_to_16000_basic. Fewer than 3
samples: return -1 before touching the output buffer. Otherwise invoke the
external miniaudio resampler (modelled by the oracle maProcess, since
miniaudio is a third-party library) with frameCountIn = sample_count and
frameCountOut = sample_count / 3, then return 0. -/
def downsample_48000_to_16000_basic (maProcess : Int → Int → List Int)
    (outBuf : List Int) (sample_count : Int) : ResampleOutcome :=
  if sample_count < 3 then
    { ret := -1, out := outBuf, resamplerCall := none }
  else
    { ret := 0, out := maProcess sample_count (sample_count / 3),
      resamplerCall := some (sample_count, sample_count / 3) }

/-- Embedding of CoreAV::upsample_16000_to_48000_basic. Fewer than 1
sample: return -1 before touching the output buffer. Otherwise invoke the
external miniaudio resampler with frameCountIn = sample_count and
frameCountOut = sample_count * 3, then return 0. -/
def upsample_16000_to_48000_basic (maProcess : Int → Int → List Int)
    (outBuf : List Int) (sample_count : Int) : ResampleOutcome :=
  if sample_count < 1 then
    { ret := -1, out := outBuf, resamplerCall := none }
  else
    { ret := 0, out := maProcess sample_count (sample_count * 3),
      resamplerCall := some (sample_count, sample_count * 3) }

/-- True when every signal emission in the trace happens while the registry
lock is not held; the boolean argument tracks whether the lock is
currently held. -/
def emitsOnlyUnlockedFrom : Bool → List Event → Bool
  | _, [] => true
  | _, Event.acquireWriteLock :: rest => emitsOnlyUnlockedFrom true rest
  | _, Event.releaseWriteLock :: rest => emitsOnlyUnlockedFrom false rest
  | held, Event.emitAvEnd _ _ :: rest =>
    !held && emitsOnlyUnlockedFrom held rest
  | held, Event.emitAvStart _ _ :: rest =>
    !held && emitsOnlyUnlockedFrom held rest
  | held, Event.emitAvInvite _ _ :: rest =>
    !held && emitsOnlyUnlockedFrom held rest
  | held, _ :: rest => emitsOnlyUnlockedFrom held rest

/-- Entry point of the emission-ordering check: the lock starts free. -/
def emitsOnlyUnlocked (evs : List Event) : Bool :=
  emitsOnlyUnlockedFrom false evs

/-- Number of transport audio-frame send attempts recorded in a trace. -/
def countSendAttempts (evs : List Event) : Nat :=
  evs.countP fun e =>
    match e with
    | Event.audioSendFrame _ => true
    | _ => false

/-- Concrete active call used to exercise the send path: active, unmuted,
with the sending-audio and accepting-audio bits set. -/
def demoCall : ToxFriendCall :=
  { active := true, muteMic := false, muteVol := false,
    videoEnabled := false, state := 20, nullVideoBitrate := false,
    hasVideoSource := false }

/-- Registry holding the single active call demoCall for friend 7. -/
def demoState : CoreAVState := emptyState.setCall 7 demoCall

/-- Concrete ringing call as the invite callback leaves it: not yet
active, accepting and sending audio. -/
def ringingCall : ToxFriendCall :=
  { active := false, muteMic := false, muteVol := false,
    videoEnabled := false, state := 20, nullVideoBitrate := false,
    hasVideoSource := false }

/-- Registry holding the single ringing call ringingCall for friend 7. -/
def ringingState : CoreAVState := emptyState.setCall 7 ringingCall

/-- Concrete mic-muted active call. -/
def mutedCall : ToxFriendCall :=
  { active := true, muteMic := true, muteVol := false,
    videoEnabled := false, state := 20, nullVideoBitrate := false,
    hasVideoSource := false }

/-- Registry holding the single muted call mutedCall for friend 5. -/
def mutedState : CoreAVState := emptyState.setCall 5 mutedCall

end CoreAV

namespace CoreAV

/-- C8: downsampling N samples (N >= 3) requests exactly N/3 output
samples from the resampler and succeeds, upsampling M samples (M >= 1)
requests exactly 3*M output samples and succeeds; in particular
downsampling 4800 samples requests 1600 outputs and upsampling those 1600
requests 4800 — the sample-count ratios are exactly 3:1. -/
theorem resample_counts_three_to_one (n m : Int) (hn : 3 ≤ n) (hm : 1 ≤ m)
    (mpDown mpUp : Int → Int → List Int) (outD outU : List Int) :
    (downsample_48000_to_16000_basic mpDown outD n).resamplerCall =
      some (n, n / 3) ∧
    (downsample_48000_to_16000_basic mpDown outD n).ret = 0 ∧
    (upsample_16000_to_48000_basic mpUp outU m).resamplerCall =
      some (m, m * 3) ∧
    (upsample_16000_to_48000_basic mpUp outU m).ret = 0 ∧
    (downsample_48000_to_16000_basic mpDown outD 4800).resamplerCall =
      some (4800, 1600) ∧
    (upsample_16000_to_48000_basic mpUp outU 1600).resamplerCall =
      some (1600, 4800) := by
  have hn3 : ¬ (n < 3) := by omega
  have hm1 : ¬ (m < 1) := by omega
  refine ⟨?_, ?_, ?_, ?_, ?_, ?_⟩ <;>
    simp [downsample_48000_to_16000_basic, upsample_16000_to_48000_basic,
      hn3, hm1]

/-- Closed instance of resample_counts_three_to_one at the 100 ms frame
sizes 4800 and 1600. -/
theorem resample_counts_three_to_one_witness :
    (downsample_48000_to_16000_basic (fun _ _ => []) [] 4800).resamplerCall =
      some (4800, 1600) ∧
    (upsample_16000_to_48000_basic (fun _ _ => []) [] 1600).resamplerCall =
      some (1600, 4800) :=
  ⟨(resample_counts_three_to_one 4800 1600 (by norm_num) (by norm_num)
      (fun _ _ => []) (fun _ _ => []) [] []).1,
   (resample_counts_three_to_one 4800 1600 (by norm_num) (by norm_num)
      (fun _ _ => []) (fun _ _ => []) [] []).2.2.2.2.2⟩

/-- C9: downsampling fewer than 3 samples returns the error code -1, the
output buffer is untouched and the external resampler is never invoked. -/
theorem downsample_short_input_noop (mp : Int → Int → List Int)
    (outBuf : List Int) (n : Int) (h : n < 3) :
    downsample_48000_to_16000_basic mp outBuf n =
      { ret := -1, out := outBuf, resamplerCall := none } := by
  simp [downsample_48000_to_16000_basic, h]

/-- Closed instance of downsample_short_input_noop at 2 samples. -/
theorem downsample_short_input_noop_witness :
    downsample_48000_to_16000_basic (fun _ _ => []) [3, 1, 4] 2 =
      { ret := -1, out := [3, 1, 4], resamplerCall := none } :=
  downsample_short_input_noop (fun _ _ => []) [3, 1, 4] 2 (by norm_num)

/-- C7 counterexample: the claim says every call-state query returns false
on a null pointer, but isCallActive reads the friend id through the
pointer before any null check, so on a null pointer it does not return
false (it dereferences null, modelled as none). -/
theorem callQueries_null_cex :
    ¬ (isCallActiveFriend emptyState none = some false) := by
  decide

/-- C7 amended: every query returns false on an identifier with no
registry entry; isCallStarted and the four mute-state queries also return
false on a null pointer; but isCallActive and isCallVideoEnabled
dereference the pointer before any null check, so a null pointer is
undefined behavior (modelled as none), not a false return. -/
theorem callQueries_failsafe (st : CoreAVState) (fid gid : Nat)
    (hf : st.calls fid = none) (hg : st.groupCalls gid = none) :
    isCallStartedFriend st none = false ∧
    isCallStartedGroup st none = false ∧
    isCallInputMuted st none = false ∧
    isCallOutputMuted st none = false ∧
    isGroupCallInputMuted st none = false ∧
    isGroupCallOutputMuted st none = false ∧
    isCallActiveFriend st none = none ∧
    isCallActiveGroup st none = none ∧
    isCallVideoEnabled st none = none ∧
    isCallStartedFriend st (some fid) = false ∧
    isCallStartedGroup st (some gid) = false ∧
    isCallActiveFriend st (some fid) = some false ∧
    isCallActiveGroup st (some gid) = some false ∧
    isCallVideoEnabled st (some fid) = some false ∧
    isCallInputMuted st (some fid) = false ∧
    isCallOutputMuted st (some fid) = false ∧
    isGroupCallInputMuted st (some gid) = false ∧
    isGroupCallOutputMuted st (some gid) = false := by
  refine ⟨rfl, rfl, rfl, rfl, rfl, rfl, rfl, rfl, rfl, ?_, ?_, ?_, ?_, ?_,
    ?_, ?_, ?_, ?_⟩ <;>
    simp [isCallStartedFriend, isCallStartedGroup, isCallActiveFriend,
      isCallActiveGroup, isCallVideoEnabled, isCallInputMuted,
      isCallOutputMuted, isGroupCallInputMuted, isGroupCallOutputMuted,
      hf, hg]

/-- Closed instance of callQueries_failsafe on the empty registry with
friend id 3 and group id 4. -/
theorem callQueries_failsafe_witness :
    isCallActiveFriend emptyState (some 3) = some false ∧
    isCallVideoEnabled emptyState (some 3) = some false ∧
    isGroupCallInputMuted emptyState (some 4) = false :=
  ⟨(callQueries_failsafe emptyState 3 4 rfl rfl).2.2.2.2.2.2.2.2.2.2.2.1,
   (callQueries_failsafe emptyState 3 4 rfl rfl).2.2.2.2.2.2.2.2.2.2.2.2.2.1,
   (callQueries_failsafe emptyState 3 4 rfl rfl).2.2.2.2.2.2.2.2.2.2.2.2.2.2.2.2.1⟩

/-- C1: when a call for the peer already exists in the registry, startCall
returns false, issues no transport call-initiation request, and leaves
the registry with exactly the one existing call for that peer; hence a
second startCall right after a successful one returns false. -/
theorem startCall_duplicate_rejected (st : CoreAVState) (p : Nat)
    (v ok : Bool) (fps : Nat) (c : ToxFriendCall) (h : st.calls p = some c) :
    (startCall st p v ok fps).result = false ∧
    Event.toxavCall p ∉ (startCall st p v ok fps).events ∧
    (startCall st p v ok fps).st.calls p = some c ∧
    (∀ (st₀ : CoreAVState) (v₁ v₂ ok₁ ok₂ : Bool) (fps₁ fps₂ : Nat),
      (startCall st₀ p v₁ ok₁ fps₁).result = true →
      (startCall (startCall st₀ p v₁ ok₁ fps₁).st p v₂ ok₂ fps₂).result =
        false) := by
  refine ⟨?_, ?_, ?_, ?_⟩
  · simp [startCall, h]
  · simp [startCall, h]
  · simp [startCall, h]
  · intro st₀ v₁ v₂ ok₁ ok₂ fps₁ fps₂ h₁
    rcases h₀ : st₀.calls p with _ | c₀
    · by_cases hok : ok₁ = true
      · subst hok
        simp [startCall, h₀, CoreAVState.emplace, CoreAVState.setCall]
      · simp [startCall, h₀, hok] at h₁
    · simp [startCall, h₀] at h₁

/-- Closed instance of startCall_duplicate_rejected: after a successful
startCall for friend 7 on the empty registry, a second startCall for 7
returns false. -/
theorem startCall_duplicate_rejected_witness :
    (startCall (startCall emptyState 7 false true 0).st 7 true true 0).result
      = false :=
  (startCall_duplicate_rejected (startCall emptyState 7 false true 0).st 7
    true true 0 (newToxFriendCall false) (by decide)).1

/-- C2: a transport state-change callback with the error bit set always
leaves the friend without a registry entry, whatever the prior call state,
and every notification in the resulting trace (in particular the abnormal
avEnd) is emitted only after the registry write lock has been released. -/
theorem stateCallback_error_teardown (st : CoreAVState) (p s : Nat)
    (h : s &&& TOXAV_FRIEND_CALL_STATE_ERROR ≠ 0) :
    (stateCallback st p s).1.calls p = none ∧
    emitsOnlyUnlocked (stateCallback st p s).2 = true := by
  rcases hc : st.calls p with _ | call
  · constructor
    · simp [stateCallback, hc]
    · simp [stateCallback, hc, emitsOnlyUnlocked, emitsOnlyUnlockedFrom]
  · constructor
    · simp [stateCallback, hc, h, CoreAVState.erase]
    · simp [stateCallback, hc, h, emitsOnlyUnlocked, emitsOnlyUnlockedFrom]

/-- Closed instance of stateCallback_error_teardown: the active call of
demoState receives state 1 (error bit). -/
theorem stateCallback_error_teardown_witness :
    (stateCallback demoState 7 1).1.calls 7 = none ∧
    emitsOnlyUnlocked (stateCallback demoState 7 1).2 = true :=
  stateCallback_error_teardown demoState 7 1 (by decide)

/-- C3 counterexample: the claim says sendCallAudio on a call id with no
registry entry returns true, but on the empty registry it returns false
(the source returns false right after the failed lookup). -/
theorem sendCallAudio_missing_cex :
    ¬ ((sendCallAudio emptyState 7 1920 1 48000 false
        (fun _ => SendFrameRes.ok)).1 = true) := by
  decide

/-- C3 amended: sendCallAudio on a call id with no registry entry returns
false, without invoking the transport audio-send primitive. -/
theorem sendCallAudio_missing_returns_false (st : CoreAVState)
    (callId samples chans rate : Nat) (ec : Bool) (tr : Nat → SendFrameRes)
    (h : st.calls callId = none) :
    (sendCallAudio st callId samples chans rate ec tr).1 = false ∧
    countSendAttempts (sendCallAudio st callId samples chans rate ec tr).2
      = 0 := by
  constructor <;> simp [sendCallAudio, h, countSendAttempts]

/-- Closed instance of sendCallAudio_missing_returns_false on the empty
registry. -/
theorem sendCallAudio_missing_returns_false_witness :
    (sendCallAudio emptyState 9 1920 1 48000 true
      (fun _ => SendFrameRes.ok)).1 = false :=
  (sendCallAudio_missing_returns_false emptyState 9 1920 1 48000 true
    (fun _ => SendFrameRes.ok) rfl).1

/-- C4: sendCallAudio on an existing call that is mic-muted, not active,
or whose state lacks the accepting-audio bit returns true as a no-op,
without invoking the transport audio-send primitive. -/
theorem sendCallAudio_muted_noop (st : CoreAVState)
    (callId samples chans rate : Nat) (ec : Bool) (tr : Nat → SendFrameRes)
    (c : ToxFriendCall) (h : st.calls callId = some c)
    (hm : c.muteMic = true ∨ c.active = false ∨
      c.state &&& TOXAV_FRIEND_CALL_STATE_ACCEPTING_A = 0) :
    (sendCallAudio st callId samples chans rate ec tr).1 = true ∧
    countSendAttempts (sendCallAudio st callId samples chans rate ec tr).2
      = 0 := by
  have hcond : c.muteMic ∨ c.active = false ∨
      c.state &&& TOXAV_FRIEND_CALL_STATE_ACCEPTING_A = 0 := by
    rcases hm with hm | hm
    · exact Or.inl (by simp [hm])
    · exact Or.inr hm
  constructor <;>
    simp [sendCallAudio, h, if_pos hcond, countSendAttempts]

/-- Closed instance of sendCallAudio_muted_noop on the muted call of
mutedState. -/
theorem sendCallAudio_muted_noop_witness :
    (sendCallAudio mutedState 5 1920 1 48000 true
      (fun _ => SendFrameRes.ok)).1 = true :=
  (sendCallAudio_muted_noop mutedState 5 1920 1 48000 true
    (fun _ => SendFrameRes.ok) mutedCall (by decide)
    (Or.inl (by decide))).1

/-- C5: answerCall on a peer with an existing registry entry either
succeeds — transport accepted, the call is marked active, true returned —
or compensates — transport rejected, a cancel control signal is sent, the
registry entry removed, false returned. -/
theorem answerCall_transport_consistency (st : CoreAVState) (p : Nat)
    (v : Bool) (fps : Nat) (c : ToxFriendCall) (h : st.calls p = some c) :
    (∃ rAcc : OpResult, answerCall st p v true fps = some rAcc ∧
      rAcc.result = true ∧
      rAcc.st.calls p = some { c with active := true }) ∧
    (∃ rRej : OpResult, answerCall st p v false fps = some rRej ∧
      rRej.result = false ∧ rRej.st.calls p = none ∧
      Event.callControlCancel p ∈ rRej.events) := by
  constructor
  · exact ⟨{ result := true, st := st.setCall p { c with active := true },
             events := Event.acquireWriteLock :: Event.toxavAnswer p v ::
               (bitratePolicyEvents p fps ++ [Event.releaseWriteLock]) },
           by simp [answerCall, h], rfl, by simp [CoreAVState.setCall]⟩
  · exact ⟨{ result := false, st := st.erase p,
             events := [Event.acquireWriteLock, Event.toxavAnswer p v,
               Event.callControlCancel p, Event.releaseWriteLock] },
           by simp [answerCall, h], rfl, by simp [CoreAVState.erase],
           by simp⟩

/-- Closed instance of answerCall_transport_consistency on the ringing
call of ringingState, transport-rejected branch. -/
theorem answerCall_transport_consistency_witness :
    ∃ rRej : OpResult, answerCall ringingState 7 false false 0 = some rRej ∧
      rRej.result = false ∧ rRej.st.calls 7 = none ∧
      Event.callControlCancel 7 ∈ rRej.events :=
  (answerCall_transport_consistency ringingState 7 false 0 ringingCall
    (by decide)).2

/-- Counting send attempts distributes over trace concatenation. -/
theorem countSendAttempts_append (l₁ l₂ : List Event) :
    countSendAttempts (l₁ ++ l₂) =
      countSendAttempts l₁ + countSendAttempts l₂ := by
  simp [countSendAttempts, List.countP_append]

/-- A send-frame event at the head of a trace adds one attempt. -/
theorem countSendAttempts_cons_send (n : Nat) (l : List Event) :
    countSendAttempts (Event.audioSendFrame n :: l) =
      countSendAttempts l + 1 := by
  simp [countSendAttempts, List.countP_cons]

/-- A sleep event at the head of a trace adds no attempt. -/
theorem countSendAttempts_cons_sleep (n : Nat) (l : List Event) :
    countSendAttempts (Event.sleepUsec n :: l) = countSendAttempts l := by
  simp [countSendAttempts, List.countP_cons]

/-- The retry loop makes at most budget many transport attempts. -/
theorem sendFrameLoop_attempts_le (tr : Nat → SendFrameRes) (callId : Nat) :
    ∀ (b i : Nat),
      countSendAttempts (sendFrameLoop tr callId i (b + 1)).2 ≤ b + 1 := by
  intro b
  induction b with
  | zero =>
    intro i
    rcases h0 : tr i <;> simp [sendFrameLoop, h0, countSendAttempts]
  | succ b ih =>
    intro i
    rcases h0 : tr i
    · simp [sendFrameLoop, h0, countSendAttempts]
    · have hrec := ih (i + 1)
      simp only [sendFrameLoop, h0]
      rw [countSendAttempts_cons_send, countSendAttempts_cons_sleep]
      omega
    · simp [sendFrameLoop, h0, countSendAttempts]

/-- When the transport reports lock-busy on every attempt, the retry loop
exits after exactly budget many attempts, still in the lock-busy state. -/
theorem sendFrameLoop_sync_all (tr : Nat → SendFrameRes) (callId : Nat)
    (htr : ∀ i, tr i = SendFrameRes.sync) :
    ∀ (b i : Nat),
      (sendFrameLoop tr callId i (b + 1)).1 = SendFrameRes.sync ∧
      countSendAttempts (sendFrameLoop tr callId i (b + 1)).2 = b + 1 := by
  intro b
  induction b with
  | zero =>
    intro i
    simp [sendFrameLoop, htr i, countSendAttempts]
  | succ b ih =>
    intro i
    have hrec := ih (i + 1)
    constructor
    · simp only [sendFrameLoop, htr i]
      exact hrec.1
    · simp only [sendFrameLoop, htr i]
      rw [countSendAttempts_cons_send, countSendAttempts_cons_sleep, hrec.2]

/-- Unfolding of sendCallAudio on a sendable call: true is returned and
the trace is the DSP events, the retry-loop events, then the drop log if
the lock-busy error persisted. -/
theorem sendCallAudio_sendable_eq (st : CoreAVState)
    (callId samples chans rate : Nat) (ec : Bool) (tr : Nat → SendFrameRes)
    (c : ToxFriendCall) (h : st.calls callId = some c)
    (hcond : ¬ (c.muteMic ∨ c.active = false ∨
      c.state &&& TOXAV_FRIEND_CALL_STATE_ACCEPTING_A = 0)) :
    sendCallAudio st callId samples chans rate ec tr =
      (true,
        (if chans = 1 ∧ rate = AUDIO_SAMPLE_RATE ∧ ec then
          [Event.dspDownsample samples, Event.dspUpsample (samples / 3)]
         else []) ++
        (sendFrameLoop tr callId 0 3).2 ++
        (if (sendFrameLoop tr callId 0 3).1 = SendFrameRes.sync then
          [Event.logDropFrame] else [])) := by
  simp [sendCallAudio, h, hcond]

/-- C6: on a sendable call the transport send is retried on the transient
lock-busy error with a short sleep, the retries counter is bounded by 3 so
at most 3 transport attempts are ever made (the loop cannot block
indefinitely); if the error persists for the whole budget the frame is
dropped with a log line after exactly 3 attempts and sendCallAudio still
returns true — frame loss is not surfaced as failure. -/
theorem sendCallAudio_retry_bounded (st : CoreAVState)
    (callId samples chans rate : Nat) (ec : Bool) (tr : Nat → SendFrameRes)
    (c : ToxFriendCall) (h : st.calls callId = some c)
    (h1 : c.muteMic = false) (h2 : c.active = true)
    (h3 : c.state &&& TOXAV_FRIEND_CALL_STATE_ACCEPTING_A ≠ 0) :
    (sendCallAudio st callId samples chans rate ec tr).1 = true ∧
    countSendAttempts (sendCallAudio st callId samples chans rate ec tr).2
      ≤ 3 ∧
    ((∀ i, tr i = SendFrameRes.sync) →
      countSendAttempts
        (sendCallAudio st callId samples chans rate ec tr).2 = 3 ∧
      Event.logDropFrame ∈
        (sendCallAudio st callId samples chans rate ec tr).2) := by
  have hcond : ¬ (c.muteMic ∨ c.active = false ∨
      c.state &&& TOXAV_FRIEND_CALL_STATE_ACCEPTING_A = 0) := by
    simp [h1, h2, h3]
  have heq := sendCallAudio_sendable_eq st callId samples chans rate ec tr
    c h hcond
  have hdsp : countSendAttempts
      (if chans = 1 ∧ rate = AUDIO_SAMPLE_RATE ∧ ec then
        [Event.dspDownsample samples, Event.dspUpsample (samples / 3)]
       else []) = 0 := by
    split <;> rfl
  have htail : ∀ (r : SendFrameRes), countSendAttempts
      (if r = SendFrameRes.sync then [Event.logDropFrame] else []) = 0 := by
    intro r
    split <;> rfl
  refine ⟨by rw [heq], ?_, ?_⟩
  · rw [heq]
    simp only [countSendAttempts_append, hdsp, htail]
    have hle := sendFrameLoop_attempts_le tr callId 2 0
    norm_num at hle
    omega
  · intro htr
    have hsync := sendFrameLoop_sync_all tr callId htr 2 0
    constructor
    · rw [heq]
      simp only [countSendAttempts_append, hdsp, htail]
      have hcount := hsync.2
      norm_num at hcount
      omega
    · rw [heq]
      simp [hsync.1]

/-- Closed instance of sendCallAudio_retry_bounded: the active call of
demoState with a transport that always reports lock-busy. -/
theorem sendCallAudio_retry_bounded_witness :
    (sendCallAudio demoState 7 1920 1 48000 true
      (fun _ => SendFrameRes.sync)).1 = true ∧
    countSendAttempts (sendCallAudio demoState 7 1920 1 48000 true
      (fun _ => SendFrameRes.sync)).2 = 3 :=
  ⟨(sendCallAudio_retry_bounded demoState 7 1920 1 48000 true
      (fun _ => SendFrameRes.sync) demoCall (by decide) (by decide)
      (by decide) (by decide)).1,
   ((sendCallAudio_retry_bounded demoState 7 1920 1 48000 true
      (fun _ => SendFrameRes.sync) demoCall (by decide) (by decide)
      (by decide) (by decide)).2.2 (fun _ => rfl)).1⟩

/-- C10: a call-invite callback for a friend that already has a registry
entry is rejected: a cancel control signal is sent to the transport, the
registry (and in particular the pre-existing entry with its state) is left
unchanged, and no avInvite notification is emitted. -/
theorem callCallback_duplicate_rejected (st : CoreAVState) (p : Nat)
    (a v : Bool) (c : ToxFriendCall) (h : st.calls p = some c) :
    (callCallback st p a v).1 = st ∧
    (callCallback st p a v).1.calls p = some c ∧
    Event.callControlCancel p ∈ (callCallback st p a v).2 ∧
    (∀ (q : Nat) (vid : Bool),
      Event.emitAvInvite q vid ∉ (callCallback st p a v).2) := by
  refine ⟨?_, ?_, ?_, ?_⟩
  · simp [callCallback, CoreAVState.emplace, h]
  · simp [callCallback, CoreAVState.emplace, h]
  · simp [callCallback, CoreAVState.emplace, h]
  · intro q vid
    simp [callCallback, CoreAVState.emplace, h]

/-- Closed instance of callCallback_duplicate_rejected: a duplicate invite
for friend 7 of demoState. -/
theorem callCallback_duplicate_rejected_witness :
    (callCallback demoState 7 true false).1.calls 7 = some demoCall ∧
    Event.callControlCancel 7 ∈ (callCallback demoState 7 true false).2 :=
  ⟨(callCallback_duplicate_rejected demoState 7 true false demoCall
      (by decide)).2.1,
   (callCallback_duplicate_rejected demoState 7 true false demoCall
      (by decide)).2.2.1⟩

end CoreAV
